import Mathlib

/-!
Shallow embedding of the `project-commerce-backend` Flask application
(`src/app.py`, `src/models.py`, and the alembic migration
`src/migration/versions/d7c5cf0640c9_initial_migration.py`).

Conventions of the embedding:
* the relational database is a record of lists of rows (`DB`), with a
  `next_id` counter standing in for the autoincrement sequences;
* monetary `Numeric(10,2)` values are exact integers in cents (`Int`),
  matching the exact-decimal arithmetic of Python's `Decimal`;
* Python `int` values (quantities, stock, ratings) are `Int`;
* every route handler is a pure function `DB → ... → Resp × DB`; the
  returned `DB` is the committed state (a handler that rolls back or
  fails returns the input state unchanged);
* `db.session.rollback()` is modelled by returning the original state;
* JSON request payloads are modelled field by field: a field that the
  handler reads raw is a plain value, a field that may be absent is an
  `Option`, and a field that the handler passes through Python's `int()`
  is a `JVal` together with the partial conversion `pyInt`;
* an uncaught Python exception (failed `int()`, broken foreign key) hits
  the registered `@app.errorhandler(500)` and is modelled as the
  response `500 "Internal server error"` with the state unchanged.
-/

namespace ECom

/-- A JSON scalar value, as Python's `request.get_json()` delivers it. -/
inductive JVal where
  | null
  | bool (b : Bool)
  | int (n : Int)
  | str (s : String)
deriving DecidableEq

/-- Fold a list of decimal-digit characters into a number; `none` when the
list is empty or contains a non-digit. -/
def digitsToNat (cs : List Char) : Option Nat :=
  if cs.isEmpty then none
  else cs.foldl
    (fun acc c =>
      match acc with
      | none => none
      | some n => if c.isDigit then some (n * 10 + (c.toNat - 48)) else none)
    (some 0)

/-- Python's `int()` applied to a string: optional surrounding spaces, an
optional sign, then decimal digits; anything else raises `ValueError`. -/
def pyIntOfStr (s : String) : Option Int :=
  let cs := ((s.toList.dropWhile (· == ' ')).reverse.dropWhile (· == ' ')).reverse
  match cs with
  | '-' :: rest => (digitsToNat rest).map (fun n => -(n : Int))
  | '+' :: rest => (digitsToNat rest).map (fun n => (n : Int))
  | rest => (digitsToNat rest).map (fun n => (n : Int))

/-- Python's `int(x)` on a JSON scalar: ints pass through, bools coerce,
numeric strings parse, everything else raises (`TypeError`/`ValueError`). -/
def pyInt : JVal → Option Int
  | .int n => some n
  | .bool b => some (if b then 1 else 0)
  | .str s => pyIntOfStr s
  | .null => none

/-- `users` table (src/models.py, class User). Timestamp columns are
omitted; `password` stores the salted hash. -/
structure User where
  id : Nat
  username : String
  email : String
  password : String
  first_name : String
  last_name : String
  is_active : Bool
  is_admin : Bool
deriving DecidableEq

/-- `products` table (src/models.py, class Product); `price` is in cents. -/
structure Product where
  id : Nat
  name : String
  description : String
  price : Int
  stock : Int
  sku : String
  is_active : Bool
  category_id : Option Nat
deriving DecidableEq

/-- `addresses` table (src/models.py, class Address). -/
structure Address where
  id : Nat
  street : String
  city : String
  state : String
  country : String
  zip_code : String
  is_default : Bool
  address_type : String
  user_id : Nat
deriving DecidableEq

/-- `categories` table (src/models.py, class Category). -/
structure Category where
  id : Nat
  name : String
  description : String
deriving DecidableEq

/-- `orders` table (src/models.py, class Order); `total_amount` in cents. -/
structure Order where
  id : Nat
  order_number : String
  status : String
  total_amount : Int
  user_id : Nat
  shipping_address_id : Nat
  billing_address_id : Nat
deriving DecidableEq

/-- `order_items` table (src/models.py, class OrderItem); `price` is the
unit price in cents copied from the product at purchase time. -/
structure OrderItem where
  id : Nat
  quantity : Int
  price : Int
  order_id : Nat
  product_id : Nat
deriving DecidableEq

/-- `reviews` table (src/models.py, class Review). -/
structure Review where
  id : Nat
  rating : Int
  comment : String
  user_id : Nat
  product_id : Nat
deriving DecidableEq

/-- `cart_items` table (src/models.py, class CartItem). -/
structure CartItem where
  id : Nat
  quantity : Int
  user_id : Nat
  product_id : Nat
deriving DecidableEq

/-- `product_images` table (src/models.py, class ProductImage). -/
structure ProductImage where
  id : Nat
  image_url : String
  alt_text : String
  is_primary : Bool
  product_id : Nat
deriving DecidableEq

/-- The whole relational database, plus the autoincrement counter. -/
structure DB where
  users : List User
  products : List Product
  categories : List Category
  addresses : List Address
  orders : List Order
  order_items : List OrderItem
  reviews : List Review
  cart_items : List CartItem
  product_images : List ProductImage
  next_id : Nat
deriving DecidableEq

/-- Apply `f` to the first list element satisfying `p` (SQLAlchemy's
"load the `.first()` row and mutate it" pattern). -/
def updateFirst (p : α → Bool) (f : α → α) : List α → List α
  | [] => []
  | x :: xs => if p x then f x :: xs else x :: updateFirst p f xs

/-- Delete the first list element satisfying `p` (`db.session.delete` on a
`.first()` row). -/
def removeFirst (p : α → Bool) : List α → List α
  | [] => []
  | x :: xs => if p x then xs else x :: removeFirst p xs

/-- One image entry of the product-detail response (`get_product`). -/
structure ImageEntry where
  id : Nat
  url : String
  alt_text : String
  is_primary : Bool
deriving DecidableEq

/-- One review entry of the product-detail response (`get_product`). -/
structure ReviewEntry where
  id : Nat
  rating : Int
  comment : String
  user_id : Nat
  username : String
deriving DecidableEq

/-- The product-detail response body (`get_product`). -/
structure ProductDetail where
  id : Nat
  name : String
  description : String
  price : Int
  stock : Int
  sku : String
  category_id : Option Nat
  category_name : Option String
  images : List ImageEntry
  reviews : List ReviewEntry
deriving DecidableEq

/-- One entry of the paginated `/products` listing (`get_products`). -/
structure ProductListEntry where
  id : Nat
  name : String
  description : String
  price : Int
  stock : Int
  sku : String
  category_id : Option Nat
  image_url : Option String
deriving DecidableEq

/-- A handler's JSON response, by shape. `err` carries the HTTP status and
the `error` message; the `ok*` constructors carry the success payloads the
handlers build (tokens and timestamps omitted). -/
inductive Resp where
  | err (status : Nat) (msg : String)
  | okLogin (userId : Nat)
  | okCartAdd (itemId productId : Nat) (quantity : Int)
  | okCartUpdate (itemId productId : Nat) (quantity : Int)
  | okCartRemove
  | okOrder (id : Nat) (order_number status : String) (total_amount : Int)
  | okReview (id : Nat) (rating : Int) (comment : String)
  | okAddress (a : Address)
  | okProductDelete
  | okProductUpdate (id : Nat) (name : String) (price stock : Int) (is_active : Bool)
  | okDetail (d : ProductDetail)
deriving DecidableEq

/-- The HTTP status each response shape is sent with in `src/app.py`. -/
def Resp.statusCode : Resp → Nat
  | .err s _ => s
  | .okLogin _ => 200
  | .okCartAdd .. => 200
  | .okCartUpdate .. => 200
  | .okCartRemove => 200
  | .okOrder .. => 201
  | .okReview .. => 201
  | .okAddress _ => 201
  | .okProductDelete => 200
  | .okProductUpdate .. => 200
  | .okDetail _ => 200

/-- `login` (src/app.py lines 91-119). Missing JSON fields are modelled
as empty strings, matching Python's falsiness test `not data.get(...)`.
When the username resolves to no user, `not user` short-circuits to the
401. When a user IS found, line 103 evaluates `user.check_password(...)`
— but the staged `src/models.py` `User` class defines no `check_password`
(or `set_password`) method, only columns and relationships, so the
attribute access raises `AttributeError` for any password, right or
wrong, and the registered `@app.errorhandler(500)` answers 500
`Internal server error`. The success branch is unreachable. -/
def login (db : DB) (username password : String) : Resp :=
  if username == "" || password == "" then
    .err 400 "Missing username or password"
  else
    match db.users.find? (fun u => u.username == username) with
    | none => .err 401 "Invalid username or password"
    | some _user => .err 500 "Internal server error"

/-- `add_to_cart` (src/app.py lines 444-494). `quantity` is the raw JSON
value, run through `pyInt` exactly where the source calls `int(...)`. -/
def addToCart (db : DB) (current_user_id : Nat)
    (product_id : Option Nat) (quantity : Option JVal) : Resp × DB :=
  match product_id, quantity with
  | some pid, some qv =>
    match pyInt qv with
    | none => (.err 500 "Internal server error", db)
    | some qty =>
      match db.products.find? (fun p => p.id == pid && p.is_active) with
      | none => (.err 404 "Product not found or unavailable", db)
      | some product =>
        if qty ≤ 0 then (.err 400 "Quantity must be greater than zero", db)
        else if product.stock < qty then (.err 400 "Not enough stock available", db)
        else
          match db.cart_items.find? (fun c => c.user_id == current_user_id && c.product_id == pid) with
          | some cart_item =>
            (.okCartAdd cart_item.id pid (cart_item.quantity + qty),
             { db with cart_items :=
                (updateFirst (fun c => c.user_id == current_user_id && c.product_id == pid)
                  (fun c => { c with quantity := c.quantity + qty }) db.cart_items) })
          | none =>
            let cart_item : CartItem :=
              { id := db.next_id, quantity := qty,
                user_id := current_user_id, product_id := pid }
            (.okCartAdd cart_item.id pid cart_item.quantity,
             { db with cart_items := db.cart_items ++ [cart_item],
                       next_id := db.next_id + 1 })
  | _, _ => (.err 400 "Product ID and quantity are required", db)

/-- `update_cart_item` (src/app.py lines 496-531). A cart item whose
product row is missing would raise on `cart_item.product.stock`
(broken foreign key), hence the 500 branch. -/
def updateCartItem (db : DB) (current_user_id item_id : Nat)
    (quantity : Option JVal) : Resp × DB :=
  match db.cart_items.find? (fun c => c.id == item_id && c.user_id == current_user_id) with
  | none => (.err 404 "Cart item not found", db)
  | some cart_item =>
    match quantity with
    | none => (.err 400 "Quantity is required", db)
    | some qv =>
      match pyInt qv with
      | none => (.err 500 "Internal server error", db)
      | some qty =>
        if qty ≤ 0 then (.err 400 "Quantity must be greater than zero", db)
        else
          match db.products.find? (fun p => p.id == cart_item.product_id) with
          | none => (.err 500 "Internal server error", db)
          | some product =>
            if product.stock < qty then (.err 400 "Not enough stock available", db)
            else
              (.okCartUpdate cart_item.id cart_item.product_id qty,
               { db with cart_items :=
                  (updateFirst (fun c => c.id == item_id && c.user_id == current_user_id)
                    (fun c => { c with quantity := qty }) db.cart_items) })

/-- `remove_from_cart` (src/app.py lines 533-547). -/
def removeFromCart (db : DB) (current_user_id item_id : Nat) : Resp × DB :=
  match db.cart_items.find? (fun c => c.id == item_id && c.user_id == current_user_id) with
  | none => (.err 404 "Cart item not found", db)
  | some _ =>
    (.okCartRemove,
     { db with cart_items :=
        (removeFirst (fun c => c.id == item_id && c.user_id == current_user_id) db.cart_items) })

/-- `create_review` (src/app.py lines 718-759). `Product.query.get_or_404`
answers the global 404 handler's body "Not found" when the id is absent;
`rating` is the raw JSON value, converted by `int(...)` (`pyInt`). -/
def createReview (db : DB) (current_user_id product_id : Nat)
    (rating : Option JVal) (comment : Option String) : Resp × DB :=
  match db.products.find? (fun p => p.id == product_id) with
  | none => (.err 404 "Not found", db)
  | some _ =>
    match rating with
    | none => (.err 400 "Rating is required", db)
    | some rv =>
      match pyInt rv with
      | none => (.err 500 "Internal server error", db)
      | some r =>
        if r < 1 || r > 5 then (.err 400 "Rating must be between 1 and 5", db)
        else
          match db.reviews.find? (fun rw => rw.user_id == current_user_id && rw.product_id == product_id) with
          | some _ => (.err 400 "You have already reviewed this product", db)
          | none =>
            let new_review : Review :=
              { id := db.next_id, rating := r, comment := comment.getD "",
                user_id := current_user_id, product_id := product_id }
            (.okReview new_review.id new_review.rating new_review.comment,
             { db with reviews := db.reviews ++ [new_review],
                       next_id := db.next_id + 1 })

/-- The JSON body accepted by `create_address`. -/
structure AddressData where
  street : Option String
  city : Option String
  state : Option String
  country : Option String
  zip_code : Option String
  is_default : Option Bool
  address_type : Option String
deriving DecidableEq

/-- `create_address` (src/app.py lines 785-828). The bulk
`Address.query.filter_by(user_id=...).update({'is_default': False})` runs
before the new row is inserted, so it clears only pre-existing rows. -/
def createAddress (db : DB) (current_user_id : Nat) (data : AddressData) : Resp × DB :=
  match data.street, data.city, data.country, data.zip_code with
  | some street, some city, some country, some zip_code =>
    let new_address : Address :=
      { id := db.next_id, street := street, city := city,
        state := data.state.getD "", country := country, zip_code := zip_code,
        is_default := data.is_default.getD false,
        address_type := data.address_type.getD "", user_id := current_user_id }
    if new_address.is_default
        || (db.addresses.filter (fun a => a.user_id == current_user_id)).length == 0 then
      let new_address := { new_address with is_default := true }
      let cleared := db.addresses.map
        (fun a => if a.user_id == current_user_id then { a with is_default := false } else a)
      (.okAddress new_address,
       { db with addresses := cleared ++ [new_address], next_id := db.next_id + 1 })
    else
      (.okAddress new_address,
       { db with addresses := db.addresses ++ [new_address], next_id := db.next_id + 1 })
  | _, _, _, _ => (.err 400 "Missing required fields", db)

/-- `delete_product` (src/app.py lines 340-358): the soft delete. -/
def deleteProduct (db : DB) (current_user_id product_id : Nat) : Resp × DB :=
  match db.users.find? (fun u => u.id == current_user_id) with
  | none => (.err 404 "Not found", db)
  | some user =>
    if !user.is_admin then (.err 403 "Unauthorized", db)
    else
      match db.products.find? (fun p => p.id == product_id) with
      | none => (.err 404 "Not found", db)
      | some _ =>
        (.okProductDelete,
         { db with products :=
            (updateFirst (fun p => p.id == product_id)
              (fun p => { p with is_active := false }) db.products) })

/-- The JSON body accepted by `update_product` (all fields optional). -/
structure ProductUpdateData where
  name : Option String
  description : Option String
  price : Option Int
  stock : Option Int
  category_id : Option (Option Nat)
  is_active : Option Bool
deriving DecidableEq

/-- The field-by-field partial update `update_product` applies. -/
def applyProductUpdate (data : ProductUpdateData) (p : Product) : Product :=
  let p := match data.name with | some v => { p with name := v } | none => p
  let p := match data.description with | some v => { p with description := v } | none => p
  let p := match data.price with | some v => { p with price := v } | none => p
  let p := match data.stock with | some v => { p with stock := v } | none => p
  let p := match data.category_id with | some v => { p with category_id := v } | none => p
  match data.is_active with | some v => { p with is_active := v } | none => p

/-- `update_product` (src/app.py lines 300-338). -/
def updateProduct (db : DB) (current_user_id product_id : Nat)
    (data : ProductUpdateData) : Resp × DB :=
  match db.users.find? (fun u => u.id == current_user_id) with
  | none => (.err 404 "Not found", db)
  | some user =>
    if !user.is_admin then (.err 403 "Unauthorized", db)
    else
      match db.products.find? (fun p => p.id == product_id) with
      | none => (.err 404 "Not found", db)
      | some p0 =>
        let p1 := applyProductUpdate data p0
        (.okProductUpdate p1.id p1.name p1.price p1.stock p1.is_active,
         { db with products :=
            (updateFirst (fun p => p.id == product_id) (applyProductUpdate data) db.products) })

/-- `get_products` (src/app.py lines 172-212): the active-only, optionally
category-filtered, paginated listing. Python's `if category_id:` is falsy
for both `None` and `0`. -/
def getProducts (db : DB) (page per_page : Nat) (category_id : Option Nat) :
    List ProductListEntry :=
  let query := db.products.filter (fun p => p.is_active)
  let query :=
    match category_id with
    | some cid => if cid == 0 then query else query.filter (fun p => p.category_id == some cid)
    | none => query
  let items := (query.drop ((page - 1) * per_page)).take per_page
  items.map (fun product =>
    let primary_image := db.product_images.find? (fun i => i.product_id == product.id && i.is_primary)
    { id := product.id, name := product.name, description := product.description,
      price := product.price, stock := product.stock, sku := product.sku,
      category_id := product.category_id,
      image_url := primary_image.map (fun i => i.image_url) })

/-- The review list of the product-detail response; `none` when some
review's user row is missing (`review.user.username` would raise). -/
def detailReviews (users : List User) : List Review → Option (List ReviewEntry)
  | [] => some []
  | r :: rs =>
    match users.find? (fun u => u.id == r.user_id) with
    | none => none
    | some u =>
      (detailReviews users rs).map (fun l =>
        { id := r.id, rating := r.rating, comment := r.comment,
          user_id := r.user_id, username := u.username } :: l)

/-- `get_product` (src/app.py lines 214-253): the detail endpoint; no
`is_active` filter on the lookup. -/
def getProduct (db : DB) (product_id : Nat) : Resp :=
  match db.products.find? (fun p => p.id == product_id) with
  | none => .err 404 "Not found"
  | some product =>
    let images := (db.product_images.filter (fun i => i.product_id == product.id)).map
      (fun i => { id := i.id, url := i.image_url, alt_text := i.alt_text,
                  is_primary := i.is_primary : ImageEntry })
    match detailReviews db.users (db.reviews.filter (fun r => r.product_id == product.id)) with
    | none => .err 500 "Internal server error"
    | some reviews =>
      .okDetail
        { id := product.id, name := product.name, description := product.description,
          price := product.price, stock := product.stock, sku := product.sku,
          category_id := product.category_id,
          category_name :=
            (product.category_id.bind (fun cid => db.categories.find? (fun c => c.id == cid))).map
              (fun c => c.name),
          images := images, reviews := reviews }

/-- Outcome of `create_order`'s per-cart-item loop: a failed re-check
(which the handler turns into a 400 and a rollback), a broken foreign key
(`cart_item.product` is `None`, raising → 500), or success with the
updated product rows, the new order items, and the accumulated total. -/
inductive LoopResult where
  | failure (msg : String)
  | crash
  | success (products : List Product) (items : List OrderItem) (total : Int)
deriving DecidableEq

/-- The `for cart_item in cart_items:` loop of `create_order`
(src/app.py lines 595-620), threading the mutated product rows and the
autoincrement counter for the order items. -/
def processCart (products : List Product) (order_id next_id : Nat) :
    List CartItem → LoopResult
  | [] => .success products [] 0
  | cart_item :: rest =>
    match products.find? (fun p => p.id == cart_item.product_id) with
    | none => .crash
    | some product =>
      if !product.is_active || product.stock < cart_item.quantity then
        let n := product.name
        .failure s!"Product {n} is not available or not enough in stock"
      else
        let order_item : OrderItem :=
          { id := next_id, quantity := cart_item.quantity, price := product.price,
            order_id := order_id, product_id := product.id }
        let products' := updateFirst (fun p => p.id == cart_item.product_id)
          (fun p => { p with stock := p.stock - cart_item.quantity }) products
        match processCart products' order_id (next_id + 1) rest with
        | .success ps items total =>
          .success ps (order_item :: items) (product.price * cart_item.quantity + total)
        | r => r

/-- `f'ORD-\x7buuid.uuid4().hex[:8].upper()\x7d'`: the first 8 characters
of the uuid hex, uppercased, after the "ORD-" tag. The 32-character
lowercase hex string produced by `uuid.uuid4().hex` is the argument. -/
def orderNumber (uuidHex : String) : String :=
  "ORD-" ++ String.mk ((uuidHex.toList.take 8).map Char.toUpper)

/-- `create_order` (src/app.py lines 550-640). The loop's 400 branch calls
`db.session.rollback()`, so it returns the input state unchanged; the
success branch commits the new order, its items, the decremented stock
and the cart deletion together. -/
def createOrder (db : DB) (current_user_id : Nat)
    (shipping_address_id billing_address_id : Option Nat) (uuidHex : String) :
    Resp × DB :=
  match shipping_address_id with
  | none => (.err 400 "Shipping address is required", db)
  | some sid =>
    match db.addresses.find? (fun a => a.id == sid && a.user_id == current_user_id) with
    | none => (.err 400 "Invalid shipping address", db)
    | some shipping_address =>
      let billing_id := billing_address_id.getD sid
      match db.addresses.find? (fun a => a.id == billing_id && a.user_id == current_user_id) with
      | none => (.err 400 "Invalid billing address", db)
      | some billing_address =>
        let cart_items := db.cart_items.filter (fun c => c.user_id == current_user_id)
        if cart_items.isEmpty then (.err 400 "Cart is empty", db)
        else
          let order_number := orderNumber uuidHex
          let order_id := db.next_id
          match processCart db.products order_id (db.next_id + 1) cart_items with
          | .crash => (.err 500 "Internal server error", db)
          | .failure msg => (.err 400 msg, db)
          | .success products' items total_amount =>
            let new_order : Order :=
              { id := order_id, order_number := order_number, status := "pending",
                total_amount := total_amount, user_id := current_user_id,
                shipping_address_id := shipping_address.id,
                billing_address_id := billing_address.id }
            (.okOrder new_order.id new_order.order_number new_order.status new_order.total_amount,
             { db with products := products',
                       orders := db.orders ++ [new_order],
                       order_items := db.order_items ++ items,
                       cart_items := db.cart_items.filter (fun c => !(c.user_id == current_user_id)),
                       next_id := db.next_id + 1 + items.length })

/-! ### Schema evolution step (the alembic migration) -/

/-- The column types the migration script and models use. -/
inductive ColType where
  | string (length : Nat)
  | text
  | integer
  | numeric (precision scale : Nat)
  | boolean
  | datetime
deriving DecidableEq

/-- A column of a relational table. -/
structure Column where
  name : String
  ctype : ColType
  nullable : Bool
deriving DecidableEq

/-- A relational table: a name and its columns, in order. -/
structure Table where
  name : String
  columns : List Column
deriving DecidableEq

/-- A database schema: its tables. -/
abbrev Schema := List Table

/-- alembic's `op.add_column(table, column)`. -/
def add_column (table : String) (c : Column) (s : Schema) : Schema :=
  s.map (fun t => if t.name == table then { t with columns := t.columns ++ [c] } else t)

/-- alembic's `op.drop_column(table, column_name)`. -/
def drop_column (table column : String) (s : Schema) : Schema :=
  s.map (fun t =>
    if t.name == table then { t with columns := t.columns.filter (fun c => !(c.name == column)) }
    else t)

/-- `sa.Column('password', sa.String(length=128), nullable=False)`. -/
def passwordColumn : Column := { name := "password", ctype := .string 128, nullable := false }

/-- `upgrade()` of revision d7c5cf0640c9: add the password column. -/
def upgrade (s : Schema) : Schema := add_column "users" passwordColumn s

/-- `downgrade()` of revision d7c5cf0640c9: drop the password column. -/
def downgrade (s : Schema) : Schema := drop_column "users" "password" s

/-! ### Derived specification functions, invariants and sample data -/

/-- The 400 message of `create_order`'s re-check failure, as the source
interpolates it. -/
def unavailableMsg (n : String) : String :=
  s!"Product {n} is not available or not enough in stock"

/-- The unit price (in cents) that the catalog currently lists for the
product with primary key `pid` (0 if absent; used only under a
foreign-key hypothesis). -/
def priceOf (products : List Product) (pid : Nat) : Int :=
  match products.find? (fun p => p.id == pid) with
  | some p => p.price
  | none => 0

/-- The spec's order total: the sum over the cart of the product's
price at order time times the requested quantity. -/
def cartTotal (products : List Product) (cart : List CartItem) : Int :=
  (cart.map (fun ci => priceOf products ci.product_id * ci.quantity)).sum

/-- The product rows after decrementing, item by item, each cart item's
quantity from its product's stock. -/
def stockAfter (products : List Product) : List CartItem → List Product
  | [] => products
  | ci :: rest =>
    stockAfter
      (updateFirst (fun p => p.id == ci.product_id)
        (fun p => { p with stock := p.stock - ci.quantity }) products) rest

/-- The order items `create_order`'s loop builds for a cart, with prices
snapshotted from `products` and ids drawn from the counter. -/
def mkItems (products : List Product) (order_id next_id : Nat) :
    List CartItem → List OrderItem
  | [] => []
  | ci :: rest =>
    { id := next_id, quantity := ci.quantity, price := priceOf products ci.product_id,
      order_id := order_id, product_id := ci.product_id }
      :: mkItems products order_id (next_id + 1) rest

/-- The cart item passes `create_order`'s re-check against `products`:
its product row exists, is active, and has sufficient stock. -/
def cartOkB (products : List Product) (ci : CartItem) : Bool :=
  match products.find? (fun q => q.id == ci.product_id) with
  | some p => p.is_active && decide (ci.quantity ≤ p.stock)
  | none => false

/-- The cart item fails `create_order`'s re-check against `products`:
its product row exists but is inactive or under-stocked. -/
def cartFailsB (products : List Product) (ci : CartItem) : Bool :=
  match products.find? (fun q => q.id == ci.product_id) with
  | some p => !p.is_active || decide (p.stock < ci.quantity)
  | none => false

/-- At most one cart item per (user, product) pair. -/
def cartInvariant (items : List CartItem) : Prop :=
  (items.map (fun c => (c.user_id, c.product_id))).Nodup

/-- At most one review per (user, product) pair. -/
def reviewInvariant (rs : List Review) : Prop :=
  (rs.map (fun r => (r.user_id, r.product_id))).Nodup

/-- For every user, at most one of their addresses is the default. -/
def addressInvariant (addrs : List Address) : Prop :=
  ∀ uid : Nat, (addrs.filter (fun a => a.user_id == uid && a.is_default)).length ≤ 1

/-- The sixteen lowercase hexadecimal digits (`uuid4().hex`'s alphabet). -/
def lowerHexChars : List Char := "0123456789abcdef".toList

/-- The sixteen uppercase hexadecimal digits. -/
def upperHexChars : List Char := "0123456789ABCDEF".toList

/-- Sample admin user for concrete witnesses. -/
def wAdmin : User :=
  { id := 1, username := "alice", email := "alice@example.com", password := "HASH1",
    first_name := "", last_name := "", is_active := true, is_admin := true }

/-- Sample non-admin user for concrete witnesses. -/
def wBob : User :=
  { id := 2, username := "bob", email := "bob@example.com", password := "HASH2",
    first_name := "", last_name := "", is_active := true, is_admin := false }

/-- Sample product (10.00, stock 5) for concrete witnesses. -/
def wWidget : Product :=
  { id := 10, name := "Widget", description := "", price := 1000, stock := 5,
    sku := "SKU-AAAAAAAA", is_active := true, category_id := none }

/-- Sample product (5.50, stock 1) for concrete witnesses. -/
def wGadget : Product :=
  { id := 11, name := "Gadget", description := "", price := 550, stock := 1,
    sku := "SKU-BBBBBBBB", is_active := true, category_id := none }

/-- Sample address owned by user 1 for concrete witnesses. -/
def wHome : Address :=
  { id := 20, street := "1 Main St", city := "Metropolis", state := "",
    country := "US", zip_code := "11111", is_default := true,
    address_type := "shipping", user_id := 1 }

/-- Sample database for concrete witnesses: two users, two products, one
address, and user 1's cart holding 2 Widgets and 1 Gadget. -/
def wDb : DB :=
  { users := [wAdmin, wBob], products := [wWidget, wGadget], categories := [],
    addresses := [wHome], orders := [], order_items := [], reviews := [],
    cart_items :=
      [{ id := 30, quantity := 2, user_id := 1, product_id := 10 },
       { id := 31, quantity := 1, user_id := 1, product_id := 11 }],
    product_images := [], next_id := 100 }

/-- Sample schema for concrete witnesses: a `users` table without a
password column, and an unrelated table. -/
def wSchema : Schema :=
  [{ name := "users",
     columns := [{ name := "id", ctype := .integer, nullable := false },
                 { name := "username", ctype := .string 64, nullable := false }] },
   { name := "products",
     columns := [{ name := "id", ctype := .integer, nullable := false }] }]

/-- Sample address payload for concrete witnesses (submitted non-default). -/
def wAddrData : AddressData :=
  { street := some "2 Oak Ave", city := some "Smallville", state := none,
    country := some "US", zip_code := some "22222", is_default := some false,
    address_type := none }

/-- Sample database for concrete witnesses whose Gadget is out of stock
(cart unchanged from `wDb`). -/
def wDbFail : DB :=
  { wDb with products := [wWidget, { wGadget with stock := 0 }] }

/-! ### Helper lemmas -/

theorem length_updateFirst (p : α → Bool) (f : α → α) (l : List α) :
    (updateFirst p f l).length = l.length := by
  induction l with
  | nil => rfl
  | cons x xs ih =>
    cases hpx : p x with
    | true => simp [updateFirst, hpx]
    | false => simp [updateFirst, hpx, ih]

theorem map_updateFirst_eq (p : α → Bool) (f : α → α) (g : α → β)
    (hg : ∀ x, p x = true → g (f x) = g x) (l : List α) :
    (updateFirst p f l).map g = l.map g := by
  induction l with
  | nil => rfl
  | cons x xs ih =>
    cases hpx : p x with
    | true => simp [updateFirst, hpx, hg x hpx]
    | false => simp [updateFirst, hpx, ih]

theorem removeFirst_sublist (p : α → Bool) (l : List α) : List.Sublist (removeFirst p l) l := by
  induction l with
  | nil => simp [removeFirst]
  | cons x xs ih =>
    cases hpx : p x with
    | true =>
      simp only [removeFirst, hpx, if_pos]
      exact List.sublist_cons_self x xs
    | false =>
      simp only [removeFirst, hpx, Bool.false_eq_true, if_false]
      exact ih.cons₂ x

theorem find?_updateFirst (p q : α → Bool) (f : α → α)
    (hq : ∀ x, q (f x) = q x) (hpq : ∀ x, q x = true → p x = false) (l : List α) :
    (updateFirst p f l).find? q = l.find? q := by
  induction l with
  | nil => rfl
  | cons x xs ih =>
    cases hpx : p x with
    | true =>
      have hqx : q x = false := by
        cases hqx : q x with
        | true => rw [hpq x hqx] at hpx; cases hpx
        | false => rfl
      have hqfx : q (f x) = false := by rw [hq]; exact hqx
      simp only [updateFirst, hpx, if_pos]
      rw [List.find?_cons_of_neg _ (by simp [hqfx]), List.find?_cons_of_neg _ (by simp [hqx])]
    | false =>
      simp only [updateFirst, hpx, Bool.false_eq_true, if_false]
      cases hqx : q x with
      | true => rw [List.find?_cons_of_pos _ (by simp [hqx]), List.find?_cons_of_pos _ (by simp [hqx])]
      | false => rw [List.find?_cons_of_neg _ (by simp [hqx]), List.find?_cons_of_neg _ (by simp [hqx]), ih]

theorem find?_updateFirst_self (p : α → Bool) (f : α → α)
    (hpf : ∀ x, p x = true → p (f x) = true) (l : List α) (x : α)
    (hx : l.find? p = some x) :
    (updateFirst p f l).find? p = some (f x) := by
  induction l with
  | nil => simp at hx
  | cons y ys ih =>
    cases hpy : p y with
    | true =>
      rw [List.find?_cons_of_pos _ (by simp [hpy])] at hx
      injection hx with hx
      subst hx
      simp only [updateFirst, hpy, if_pos]
      rw [List.find?_cons_of_pos _ (by simp [hpf y hpy])]
    | false =>
      rw [List.find?_cons_of_neg _ (by simp [hpy])] at hx
      simp only [updateFirst, hpy, Bool.false_eq_true, if_false]
      rw [List.find?_cons_of_neg _ (by simp [hpy])]
      exact ih hx

theorem filter_updateFirst_pos (p : α → Bool) (f : α → α)
    (hpf : ∀ x, p x = true → p (f x) = true) (l : List α) (x : α)
    (hfind : l.find? p = some x) (hsing : l.filter p = [x]) :
    (updateFirst p f l).filter p = [f x] := by
  induction l with
  | nil => simp at hfind
  | cons y ys ih =>
    cases hpy : p y with
    | true =>
      rw [List.find?_cons_of_pos _ (by simp [hpy])] at hfind
      injection hfind with hfind
      subst hfind
      rw [List.filter_cons_of_pos (by simp [hpy])] at hsing
      injection hsing with _ hsing
      simp only [updateFirst, hpy, if_pos]
      rw [List.filter_cons_of_pos (by simp [hpf y hpy]), hsing]
    | false =>
      rw [List.find?_cons_of_neg _ (by simp [hpy])] at hfind
      rw [List.filter_cons_of_neg (by simp [hpy])] at hsing
      simp only [updateFirst, hpy, Bool.false_eq_true, if_false]
      rw [List.filter_cons_of_neg (by simp [hpy])]
      exact ih hfind hsing

theorem filter_not_updateFirst (p : α → Bool) (f : α → α)
    (hpf : ∀ x, p x = true → p (f x) = true) (l : List α) :
    (updateFirst p f l).filter (fun y => !(p y)) = l.filter (fun y => !(p y)) := by
  induction l with
  | nil => rfl
  | cons y ys ih =>
    cases hpy : p y with
    | true =>
      simp only [updateFirst, hpy, if_pos]
      rw [List.filter_cons_of_neg (by simp [hpf y hpy]), List.filter_cons_of_neg (by simp [hpy])]
    | false =>
      simp only [updateFirst, hpy, Bool.false_eq_true, if_false]
      rw [List.filter_cons_of_pos (by simp [hpy]), List.filter_cons_of_pos (by simp [hpy]), ih]

theorem find?_eq_of_mem_nodup (g : α → Nat) (l : List α) (hnd : (l.map g).Nodup)
    (x : α) (hx : x ∈ l) : l.find? (fun y => g y == g x) = some x := by
  induction l with
  | nil => simp at hx
  | cons y ys ih =>
    rw [List.map_cons, List.nodup_cons] at hnd
    rcases List.mem_cons.mp hx with h | h
    · subst h
      rw [List.find?_cons_of_pos _ (by simp)]
    · have hne : g y ≠ g x := by
        intro hgy
        exact hnd.1 (hgy ▸ List.mem_map_of_mem g h)
      rw [List.find?_cons_of_neg _ (by simp [hne])]
      exact ih hnd.2 h

theorem createReview_reviews_shape (db : DB) (uid pid : Nat) (rv : Option JVal)
    (c2 : Option String) :
    (createReview db uid pid rv c2).2.reviews = db.reviews ∨
    ∃ n : Int, db.reviews.find? (fun rw => rw.user_id == uid && rw.product_id == pid) = none ∧
      (createReview db uid pid rv c2).2.reviews =
        db.reviews ++ [{ id := db.next_id, rating := n, comment := c2.getD "",
                         user_id := uid, product_id := pid }] := by
  unfold createReview
  repeat' split
  all_goals first
    | (left; rfl)
    | (right; exact ⟨_, by assumption, rfl⟩)

theorem addToCart_cart_shape (db : DB) (uid : Nat) (pid? : Option Nat) (qv : Option JVal) :
    (addToCart db uid pid? qv).2.cart_items = db.cart_items ∨
    (∃ pid qty, (addToCart db uid pid? qv).2.cart_items =
      updateFirst (fun c => c.user_id == uid && c.product_id == pid)
        (fun c => { c with quantity := c.quantity + qty }) db.cart_items) ∨
    (∃ pid qty, db.cart_items.find? (fun c => c.user_id == uid && c.product_id == pid) = none ∧
      (addToCart db uid pid? qv).2.cart_items =
        db.cart_items ++ [{ id := db.next_id, quantity := qty, user_id := uid, product_id := pid }]) := by
  unfold addToCart
  repeat' split
  all_goals first
    | (left; rfl)
    | (right; left; exact ⟨_, _, rfl⟩)
    | (right; right; exact ⟨_, _, by assumption, rfl⟩)

theorem updateCartItem_cart_shape (db : DB) (uid item_id : Nat) (qv : Option JVal) :
    (updateCartItem db uid item_id qv).2.cart_items = db.cart_items ∨
    ∃ qty, (updateCartItem db uid item_id qv).2.cart_items =
      updateFirst (fun c => c.id == item_id && c.user_id == uid)
        (fun c => { c with quantity := qty }) db.cart_items := by
  unfold updateCartItem
  repeat' split
  all_goals first
    | (left; rfl)
    | (right; exact ⟨_, rfl⟩)

theorem removeFromCart_cart_shape (db : DB) (uid item_id : Nat) :
    (removeFromCart db uid item_id).2.cart_items = db.cart_items ∨
    (removeFromCart db uid item_id).2.cart_items =
      removeFirst (fun c => c.id == item_id && c.user_id == uid) db.cart_items := by
  unfold removeFromCart
  repeat' split
  all_goals first | (left; rfl) | (right; rfl)

theorem createOrder_cart_shape (db : DB) (uid : Nat) (sid bid : Option Nat) (hex : String) :
    (createOrder db uid sid bid hex).2.cart_items = db.cart_items ∨
    (createOrder db uid sid bid hex).2.cart_items =
      db.cart_items.filter (fun c => !(c.user_id == uid)) := by
  unfold createOrder
  dsimp only
  repeat' split
  all_goals first | (left; rfl) | (right; rfl)

theorem cart_filter_singleton (l : List CartItem) (uid pid : Nat)
    (hnd : cartInvariant l) (c0 : CartItem)
    (hfind : l.find? (fun c => c.user_id == uid && c.product_id == pid) = some c0) :
    l.filter (fun c => c.user_id == uid && c.product_id == pid) = [c0] := by
  induction l with
  | nil => simp at hfind
  | cons x xs ih =>
    unfold cartInvariant at hnd
    rw [List.map_cons, List.nodup_cons] at hnd
    cases hpx : (x.user_id == uid && x.product_id == pid) with
    | true =>
      rw [List.find?_cons_of_pos _ (by simp only [hpx])] at hfind
      injection hfind with hfind
      subst hfind
      rw [List.filter_cons_of_pos (by simp only [hpx])]
      have hxu : x.user_id = uid ∧ x.product_id = pid := by
        simpa [Bool.and_eq_true] using hpx
      have hrest : xs.filter (fun c => c.user_id == uid && c.product_id == pid) = [] := by
        rw [List.filter_eq_nil_iff]
        intro c hc hcc
        have hcu : c.user_id = uid ∧ c.product_id = pid := by
          simpa [Bool.and_eq_true] using hcc
        refine hnd.1 ?_
        rw [hxu.1, hxu.2, ← hcu.1, ← hcu.2]
        exact List.mem_map_of_mem _ hc
      rw [hrest]
    | false =>
      rw [List.find?_cons_of_neg _ (by simp only [hpx]; exact fun h => nomatch h)] at hfind
      rw [List.filter_cons_of_neg (by simp only [hpx]; exact fun h => nomatch h)]
      exact ih hnd.2 hfind

theorem createAddress_addresses_shape (db : DB) (uid : Nat) (data : AddressData) :
    (createAddress db uid data).2.addresses = db.addresses ∨
    (∃ a : Address, a.user_id = uid ∧ a.is_default = true ∧
      (createAddress db uid data).2.addresses =
        (db.addresses.map
          (fun b => if b.user_id == uid then { b with is_default := false } else b)) ++ [a]) ∨
    (∃ a : Address, a.user_id = uid ∧ a.is_default = false ∧
      (createAddress db uid data).2.addresses = db.addresses ++ [a]) := by
  unfold createAddress
  dsimp only
  repeat' split
  all_goals first
    | (left; rfl)
    | (right; left; exact ⟨_, rfl, rfl, rfl⟩)
    | (right; right; rename_i h;
       exact ⟨_, rfl, by simp only [Bool.or_eq_true, not_or] at h; simpa using h.1, rfl⟩)

theorem detailReviews_isSome (users : List User) (rs : List Review)
    (h : ∀ r ∈ rs, (users.find? (fun u => u.id == r.user_id)).isSome = true) :
    ∃ es, detailReviews users rs = some es := by
  induction rs with
  | nil => exact ⟨[], rfl⟩
  | cons r rest ih =>
    obtain ⟨u, hu⟩ := Option.isSome_iff_exists.mp (h r (by simp))
    obtain ⟨es, hes⟩ := ih (fun r' hr' => h r' (by simp [hr']))
    refine ⟨{ id := r.id, rating := r.rating, comment := r.comment,
              user_id := r.user_id, username := u.username } :: es, ?_⟩
    simp [detailReviews, hu, hes]

theorem getProducts_mem_active (db : DB) (page per_page : Nat) (cid : Option Nat)
    (e : ProductListEntry) (he : e ∈ getProducts db page per_page cid) :
    ∃ product, product ∈ db.products ∧ product.is_active = true ∧ e.id = product.id := by
  unfold getProducts at he
  dsimp only at he
  obtain ⟨product, hmem, rfl⟩ := List.mem_map.mp he
  refine ⟨product, ?_, ?_, rfl⟩
  all_goals {
    have h1 := List.drop_subset _ _ (List.take_subset _ _ hmem)
    have h2 : product ∈ db.products.filter (fun p => p.is_active) := by
      rcases cid with _ | c
      · exact h1
      · dsimp only at h1
        by_cases hc : (c == 0) = true
        · rw [if_pos hc] at h1
          exact h1
        · rw [if_neg hc] at h1
          exact List.mem_of_mem_filter h1
    first
      | exact List.mem_of_mem_filter h2
      | simpa using (List.mem_filter.mp h2).2
  }

theorem upper_of_lower : ∀ c ∈ lowerHexChars, c.toUpper ∈ upperHexChars := by decide

theorem find?_decrement_ne (products : List Product) (pid pid' : Nat) (q : Int)
    (hne : pid ≠ pid') :
    (updateFirst (fun p => p.id == pid) (fun p => { p with stock := p.stock - q })
      products).find? (fun p => p.id == pid')
      = products.find? (fun p => p.id == pid') := by
  apply find?_updateFirst
  · intro x
    rfl
  · intro x hx
    have hx' : x.id = pid' := by simpa using hx
    rw [hx']
    simp only [beq_eq_false_iff_ne, ne_eq]
    omega

theorem stockAfter_find?_not_mem (cart : List CartItem) :
    ∀ products (pid : Nat), pid ∉ cart.map (fun c => c.product_id) →
    (stockAfter products cart).find? (fun p => p.id == pid)
      = products.find? (fun p => p.id == pid) := by
  induction cart with
  | nil =>
    intro products pid _
    rfl
  | cons ci rest ih =>
    intro products pid hpid
    rw [List.map_cons, List.mem_cons] at hpid
    push_neg at hpid
    unfold stockAfter
    rw [ih _ pid hpid.2]
    exact find?_decrement_ne products ci.product_id pid ci.quantity (Ne.symm hpid.1)

theorem stockAfter_find?_mem (cart : List CartItem) :
    ∀ products, (cart.map (fun c => c.product_id)).Nodup →
    ∀ ci ∈ cart, ∀ p : Product, products.find? (fun q => q.id == ci.product_id) = some p →
    (stockAfter products cart).find? (fun q => q.id == ci.product_id)
      = some { p with stock := p.stock - ci.quantity } := by
  induction cart with
  | nil =>
    intro _ _ ci h
    simp at h
  | cons cj rest ih =>
    intro products hnd ci hci p hp
    rw [List.map_cons, List.nodup_cons] at hnd
    unfold stockAfter
    rcases List.mem_cons.mp hci with h | hci'
    · subst h
      rw [stockAfter_find?_not_mem rest _ ci.product_id hnd.1]
      exact find?_updateFirst_self (fun q => q.id == ci.product_id)
        (fun q => { q with stock := q.stock - ci.quantity }) (fun x hx => hx) products p hp
    · have hne : cj.product_id ≠ ci.product_id := by
        intro hh
        exact hnd.1 (hh ▸ List.mem_map_of_mem _ hci')
      refine ih _ hnd.2 ci hci' p ?_
      rw [find?_decrement_ne products cj.product_id ci.product_id cj.quantity hne]
      exact hp

theorem mkItems_congr (products products' : List Product) (oid : Nat) (cart : List CartItem)
    (h : ∀ ci ∈ cart, products.find? (fun q => q.id == ci.product_id)
      = products'.find? (fun q => q.id == ci.product_id)) :
    ∀ nid, mkItems products oid nid cart = mkItems products' oid nid cart := by
  induction cart with
  | nil =>
    intro nid
    rfl
  | cons ci rest ih =>
    intro nid
    unfold mkItems
    have hprice : priceOf products ci.product_id = priceOf products' ci.product_id := by
      unfold priceOf
      rw [h ci (by simp)]
    rw [hprice, ih (fun c hc => h c (by simp [hc])) (nid + 1)]

theorem cartTotal_congr (products products' : List Product) (cart : List CartItem)
    (h : ∀ ci ∈ cart, products.find? (fun q => q.id == ci.product_id)
      = products'.find? (fun q => q.id == ci.product_id)) :
    cartTotal products cart = cartTotal products' cart := by
  unfold cartTotal
  congr 1
  apply List.map_congr_left
  intro ci hci
  unfold priceOf
  rw [h ci hci]

theorem mkItems_mem (products : List Product) (oid : Nat) (cart : List CartItem) :
    ∀ nid, ∀ ci ∈ cart, ∃ it ∈ mkItems products oid nid cart,
      it.order_id = oid ∧ it.product_id = ci.product_id ∧ it.quantity = ci.quantity ∧
      it.price = priceOf products ci.product_id := by
  induction cart with
  | nil =>
    intro nid ci h
    simp at h
  | cons cj rest ih =>
    intro nid ci hci
    rcases List.mem_cons.mp hci with h | hci'
    · subst h
      refine ⟨{ id := nid, quantity := ci.quantity, price := priceOf products ci.product_id,
                order_id := oid, product_id := ci.product_id }, ?_, rfl, rfl, rfl, rfl⟩
      simp [mkItems]
    · obtain ⟨it, hit, h⟩ := ih (nid + 1) ci hci'
      exact ⟨it, by simp [mkItems, hit], h⟩

theorem cartTotal_cons (products : List Product) (ci : CartItem) (rest : List CartItem) :
    cartTotal products (ci :: rest)
      = priceOf products ci.product_id * ci.quantity + cartTotal products rest := by
  unfold cartTotal
  rw [List.map_cons, List.sum_cons]

theorem processCart_success (cart : List CartItem) :
    ∀ products (oid nid : Nat),
    (cart.map (fun c => c.product_id)).Nodup →
    (∀ ci ∈ cart, cartOkB products ci = true) →
    processCart products oid nid cart =
      .success (stockAfter products cart) (mkItems products oid nid cart)
        (cartTotal products cart) := by
  induction cart with
  | nil =>
    intro products oid nid _ _
    simp [processCart, stockAfter, mkItems, cartTotal]
  | cons ci rest ih =>
    intro products oid nid hnd hok
    rw [List.map_cons, List.nodup_cons] at hnd
    have hci := hok ci (by simp)
    unfold cartOkB at hci
    cases hfind : products.find? (fun q => q.id == ci.product_id) with
    | none =>
      rw [hfind] at hci
      cases hci
    | some p =>
      rw [hfind] at hci
      rw [Bool.and_eq_true] at hci
      have hact : p.is_active = true := hci.1
      have hstock : ci.quantity ≤ p.stock := of_decide_eq_true hci.2
      have hcond : (!p.is_active || decide (p.stock < ci.quantity)) = false := by
        rw [hact]
        simp only [Bool.not_true, Bool.false_or, decide_eq_false_iff_not, not_lt]
        exact hstock
      have hpid : p.id = ci.product_id := by simpa using List.find?_some hfind
      have hfind_rest : ∀ c ∈ rest,
          (updateFirst (fun q => q.id == ci.product_id)
            (fun q => { q with stock := q.stock - ci.quantity }) products).find?
              (fun q => q.id == c.product_id)
            = products.find? (fun q => q.id == c.product_id) := by
        intro c hc
        apply find?_decrement_ne
        intro hh
        exact hnd.1 (hh ▸ List.mem_map_of_mem _ hc)
      have hok' : ∀ c ∈ rest,
          cartOkB (updateFirst (fun q => q.id == ci.product_id)
            (fun q => { q with stock := q.stock - ci.quantity }) products) c = true := by
        intro c hc
        have hc2 := hok c (by simp [hc])
        unfold cartOkB at hc2 ⊢
        rw [hfind_rest c hc]
        exact hc2
      have hneg : ¬((!p.is_active || decide (p.stock < ci.quantity)) = true) := by
        simp [hcond]
      unfold processCart
      rw [hfind]
      dsimp only
      rw [if_neg hneg]
      rw [ih _ oid (nid + 1) hnd.2 hok']
      have hprice : priceOf products ci.product_id = p.price := by
        unfold priceOf
        rw [hfind]
      have e1 : stockAfter products (ci :: rest)
          = stockAfter (updateFirst (fun q => q.id == ci.product_id)
              (fun q => { q with stock := q.stock - ci.quantity }) products) rest := by
        simp only [stockAfter]
      have e2 : mkItems products oid nid (ci :: rest)
          = { id := nid, quantity := ci.quantity, price := p.price, order_id := oid, product_id := p.id }
            :: mkItems (updateFirst (fun q => q.id == ci.product_id)
                 (fun q => { q with stock := q.stock - ci.quantity }) products) oid (nid + 1) rest := by
        simp only [mkItems]
        rw [hprice, hpid]
        rw [mkItems_congr products
          (updateFirst (fun q => q.id == ci.product_id)
            (fun q => { q with stock := q.stock - ci.quantity }) products)
          oid rest (fun c hc => (hfind_rest c hc).symm) (nid + 1)]
      have e3 : cartTotal products (ci :: rest)
          = p.price * ci.quantity + cartTotal (updateFirst (fun q => q.id == ci.product_id)
              (fun q => { q with stock := q.stock - ci.quantity }) products) rest := by
        rw [cartTotal_cons, hprice,
          cartTotal_congr products
            (updateFirst (fun q => q.id == ci.product_id)
              (fun q => { q with stock := q.stock - ci.quantity }) products)
            rest (fun c hc => (hfind_rest c hc).symm)]
      rw [e1, e2, e3]

theorem processCart_failure (cart : List CartItem) :
    ∀ products (oid nid : Nat),
    (cart.map (fun c => c.product_id)).Nodup →
    (∀ ci ∈ cart, (products.find? (fun q => q.id == ci.product_id)).isSome = true) →
    (∃ ci ∈ cart, cartFailsB products ci = true) →
    ∃ ci ∈ cart, ∃ p, products.find? (fun q => q.id == ci.product_id) = some p ∧
      (p.is_active = false ∨ p.stock < ci.quantity) ∧
      processCart products oid nid cart = .failure (unavailableMsg p.name) := by
  induction cart with
  | nil =>
    intro products oid nid _ _ hfail
    simp at hfail
  | cons ci rest ih =>
    intro products oid nid hnd hfk hfail
    rw [List.map_cons, List.nodup_cons] at hnd
    obtain ⟨p, hp⟩ := Option.isSome_iff_exists.mp (hfk ci (by simp))
    by_cases hchk : (!p.is_active || decide (p.stock < ci.quantity)) = true
    · refine ⟨ci, by simp, p, hp, ?_, ?_⟩
      · rw [Bool.or_eq_true] at hchk
        rcases hchk with h1 | h1
        · left
          simpa using h1
        · right
          exact of_decide_eq_true h1
      · unfold processCart
        rw [hp]
        dsimp only
        rw [if_pos hchk]
        rfl
    · have hchkf : (!p.is_active || decide (p.stock < ci.quantity)) = false :=
        Bool.eq_false_iff.mpr hchk
      have hfind_rest : ∀ c ∈ rest,
          (updateFirst (fun q => q.id == ci.product_id)
            (fun q => { q with stock := q.stock - ci.quantity }) products).find?
              (fun q => q.id == c.product_id)
            = products.find? (fun q => q.id == c.product_id) := by
        intro c hc
        apply find?_decrement_ne
        intro hh
        exact hnd.1 (hh ▸ List.mem_map_of_mem _ hc)
      have hfail' : ∃ c ∈ rest,
          cartFailsB (updateFirst (fun q => q.id == ci.product_id)
            (fun q => { q with stock := q.stock - ci.quantity }) products) c = true := by
        obtain ⟨c, hc, hbadc⟩ := hfail
        rcases List.mem_cons.mp hc with h | hc'
        · subst h
          exfalso
          unfold cartFailsB at hbadc
          rw [hp] at hbadc
          dsimp only at hbadc
          exact hchk hbadc
        · refine ⟨c, hc', ?_⟩
          unfold cartFailsB at hbadc ⊢
          rw [hfind_rest c hc']
          exact hbadc
      have hfk' : ∀ c ∈ rest,
          ((updateFirst (fun q => q.id == ci.product_id)
            (fun q => { q with stock := q.stock - ci.quantity }) products).find?
              (fun q => q.id == c.product_id)).isSome = true := by
        intro c hc
        rw [hfind_rest c hc]
        exact hfk c (by simp [hc])
      obtain ⟨c, hc, p', hp', hbad', hrun⟩ := ih _ oid (nid + 1) hnd.2 hfk' hfail'
      refine ⟨c, by simp [hc], p', ?_, hbad', ?_⟩
      · rw [← hfind_rest c hc]
        exact hp'
      · have hneg : ¬((!p.is_active || decide (p.stock < ci.quantity)) = true) := by
          simp [hchkf]
        unfold processCart
        rw [hp]
        dsimp only
        rw [if_neg hneg]
        rw [hrun]

theorem updateProduct_order_items (db : DB) (uid pid : Nat) (data : ProductUpdateData) :
    (updateProduct db uid pid data).2.order_items = db.order_items := by
  unfold updateProduct
  repeat' split
  all_goals rfl

/-! ### Claim theorems -/

/-- C10: the schema-evolution step is a round trip — the forward operation
adds exactly one required 128-character `password` column to the `users`
table and changes nothing else, the backward operation drops exactly that
column, and backward after forward restores any schema whose `users` table
has no pre-existing `password` column. -/
theorem c10_migration_roundtrip (s : Schema)
    (h : ∀ t ∈ s, t.name = "users" → ∀ c ∈ t.columns, c.name ≠ "password") :
    passwordColumn.name = "password" ∧ passwordColumn.ctype = .string 128 ∧
    passwordColumn.nullable = false ∧
    (upgrade s).length = s.length ∧
    (∀ t ∈ s, t.name ≠ "users" → t ∈ upgrade s) ∧
    (∀ t ∈ s, t.name = "users" →
      { t with columns := t.columns ++ [passwordColumn] } ∈ upgrade s) ∧
    downgrade (upgrade s) = s := by
  refine ⟨rfl, rfl, rfl, by simp [upgrade, add_column], ?_, ?_, ?_⟩
  · intro t ht hne
    unfold upgrade add_column
    refine List.mem_map.mpr ⟨t, ht, ?_⟩
    simp [hne]
  · intro t ht hname
    unfold upgrade add_column
    refine List.mem_map.mpr ⟨t, ht, ?_⟩
    simp [hname]
  · unfold downgrade upgrade add_column drop_column
    rw [List.map_map]
    conv_rhs => rw [← List.map_id s]
    refine List.map_congr_left ?_
    intro t ht
    by_cases hname : t.name = "users"
    · have hcols := h t ht hname
      have hkeep : ∀ c ∈ t.columns, (!(c.name == "password")) = true := by
        intro c hc
        simp [hcols c hc]
      simp only [Function.comp, hname, beq_self_eq_true, if_pos]
      simp [List.filter_append, List.filter_eq_self.mpr hkeep, passwordColumn]
      rw [← hname]
    · have hb : (t.name == "users") = false := by simp [hname]
      simp [Function.comp, hb]

/-- C7 (refuting evaluation): the claim's two requests do NOT produce
identical responses on this code. A nonexistent username ("carol") gets
401 "Invalid username or password", but an existing username ("alice")
with a wrong password crashes in `user.check_password` — `User` defines
no such method — and gets 500 "Internal server error"; the responses
differ, so login responses DO reveal whether the username exists. -/
theorem c7_login_divergence :
    login wDb "carol" "pw" = .err 401 "Invalid username or password" ∧
    login wDb "alice" "pw" = .err 500 "Internal server error" ∧
    login wDb "carol" "pw" ≠ login wDb "alice" "pw" := by
  refine ⟨rfl, rfl, ?_⟩
  decide

/-- C9: a rating or quantity field that is present but not convertible by
Python's `int()` (e.g. `"abc"` or `null`) raises before any state mutation:
the client receives the generic 500 `Internal server error` and the
database is unchanged, in `add_to_cart`, `update_cart_item` (for an owned
cart item) and `create_review` (for an existing product). -/
theorem c9_int_conversion_500 (db : DB) (uid pid item_id : Nat) (jv : JVal)
    (comment : Option String) (hbad : pyInt jv = none) :
    addToCart db uid (some pid) (some jv) = (.err 500 "Internal server error", db) ∧
    ((db.cart_items.find? (fun c => c.id == item_id && c.user_id == uid)).isSome = true →
      updateCartItem db uid item_id (some jv) = (.err 500 "Internal server error", db)) ∧
    ((db.products.find? (fun p => p.id == pid)).isSome = true →
      createReview db uid pid (some jv) comment = (.err 500 "Internal server error", db)) ∧
    pyInt (.str "abc") = none ∧ pyInt .null = none := by
  refine ⟨?_, ?_, ?_, by decide, rfl⟩
  · simp [addToCart, hbad]
  · intro h
    obtain ⟨ci, hci⟩ := Option.isSome_iff_exists.mp h
    simp [updateCartItem, hci, hbad]
  · intro h
    obtain ⟨p, hp⟩ := Option.isSome_iff_exists.mp h
    simp [createReview, hp, hbad]

/-- C4: add-to-cart validates in order — nonexistent-or-inactive product
gives 404 "Product not found or unavailable" for any integer quantity,
then a non-positive quantity gives 400 "Quantity must be greater than
zero", then insufficient stock gives 400 "Not enough stock available";
every failure leaves the whole database (hence the cart) unchanged. -/
theorem c4_addToCart_validation (db : DB) (uid pid : Nat) (qty : Int) :
    (db.products.find? (fun p => p.id == pid && p.is_active) = none →
      addToCart db uid (some pid) (some (.int qty)) =
        (.err 404 "Product not found or unavailable", db)) ∧
    (∀ product, db.products.find? (fun p => p.id == pid && p.is_active) = some product →
      qty ≤ 0 →
      addToCart db uid (some pid) (some (.int qty)) =
        (.err 400 "Quantity must be greater than zero", db)) ∧
    (∀ product, db.products.find? (fun p => p.id == pid && p.is_active) = some product →
      0 < qty → product.stock < qty →
      addToCart db uid (some pid) (some (.int qty)) =
        (.err 400 "Not enough stock available", db)) := by
  refine ⟨?_, ?_, ?_⟩
  · intro h
    simp [addToCart, pyInt, h]
  · intro product h hq
    simp [addToCart, pyInt, h, hq]
  · intro product h hq hs
    simp [addToCart, pyInt, h, hs, show ¬(qty ≤ 0) by omega]

/-- C6: create-review fails with 404 for a nonexistent product id, 400
"Rating must be between 1 and 5" for an integer rating outside 1..5
(1 and 5 are accepted), and 400 "You have already reviewed this product"
for a duplicate — with the review list unchanged; otherwise exactly one
review is created and answered 201; so at most one review per
(user, product) pair is preserved by the operation. -/
theorem c6_createReview_cases (db : DB) (uid pid : Nat) (r : Int)
    (comment : Option String) :
    (db.products.find? (fun p => p.id == pid) = none →
      createReview db uid pid (some (.int r)) comment = (.err 404 "Not found", db)) ∧
    ((db.products.find? (fun p => p.id == pid)).isSome = true → (r < 1 ∨ 5 < r) →
      createReview db uid pid (some (.int r)) comment =
        (.err 400 "Rating must be between 1 and 5", db)) ∧
    ((db.products.find? (fun p => p.id == pid)).isSome = true → 1 ≤ r → r ≤ 5 →
      (db.reviews.find? (fun rw => rw.user_id == uid && rw.product_id == pid)).isSome = true →
      createReview db uid pid (some (.int r)) comment =
        (.err 400 "You have already reviewed this product", db) ∧
      (createReview db uid pid (some (.int r)) comment).2.reviews.length
        = db.reviews.length) ∧
    ((db.products.find? (fun p => p.id == pid)).isSome = true → 1 ≤ r → r ≤ 5 →
      db.reviews.find? (fun rw => rw.user_id == uid && rw.product_id == pid) = none →
      createReview db uid pid (some (.int r)) comment =
        (.okReview db.next_id r (comment.getD ""),
         { db with reviews := db.reviews ++ [{ id := db.next_id, rating := r, comment := comment.getD "", user_id := uid, product_id := pid }], next_id := db.next_id + 1 }) ∧
      (createReview db uid pid (some (.int r)) comment).1.statusCode = 201) ∧
    (∀ rv c2, reviewInvariant db.reviews →
      reviewInvariant (createReview db uid pid rv c2).2.reviews) := by
  refine ⟨?_, ?_, ?_, ?_, ?_⟩
  · intro h
    simp [createReview, h]
  · intro h hr
    obtain ⟨p, hp⟩ := Option.isSome_iff_exists.mp h
    simp [createReview, hp, pyInt, if_pos hr]
  · intro h h1 h5 hdup
    obtain ⟨p, hp⟩ := Option.isSome_iff_exists.mp h
    obtain ⟨rw0, hrw0⟩ := Option.isSome_iff_exists.mp hdup
    have hcond : ¬(r < 1 ∨ r > 5) := by omega
    refine ⟨?_, ?_⟩
    · simp [createReview, hp, pyInt, if_neg hcond, hrw0]
    · simp [createReview, hp, pyInt, if_neg hcond, hrw0]
  · intro h h1 h5 hnone
    obtain ⟨p, hp⟩ := Option.isSome_iff_exists.mp h
    have hcond : ¬(r < 1 ∨ r > 5) := by omega
    refine ⟨?_, ?_⟩
    · simp [createReview, hp, pyInt, if_neg hcond, hnone]
    · simp [createReview, hp, pyInt, if_neg hcond, hnone, Resp.statusCode]
  · intro rv c2 hinv
    rcases createReview_reviews_shape db uid pid rv c2 with hsh | ⟨n, hnone, hsh⟩
    · rw [hsh]
      exact hinv
    · rw [hsh]
      unfold reviewInvariant at hinv ⊢
      rw [List.map_append, List.nodup_append]
      refine ⟨hinv, by simp, ?_⟩
      intro x hx hx2
      simp only [List.map_cons, List.map_nil, List.mem_singleton] at hx2
      subst hx2
      obtain ⟨rw0, hrw0, hg⟩ := List.mem_map.mp hx
      have hno := List.find?_eq_none.mp hnone rw0 hrw0
      rw [Prod.mk.injEq] at hg
      simp [hg.1, hg.2] at hno

/-- C1: order placement is all-or-nothing — with valid addresses, if any
cart item's product is inactive or under-stocked, create-order answers
400 naming an offending product and the final state equals the initial
state: no order row, no order items, no stock decrement, cart unchanged. -/
theorem c1_order_atomicity (db : DB) (uid sid : Nat) (bid? : Option Nat) (uuidHex : String)
    (shipping billing : Address)
    (hship : db.addresses.find? (fun a => a.id == sid && a.user_id == uid) = some shipping)
    (hbill : db.addresses.find? (fun a => a.id == bid?.getD sid && a.user_id == uid) = some billing)
    (hdist : ((db.cart_items.filter (fun c => c.user_id == uid)).map
      (fun c => c.product_id)).Nodup)
    (hfk : ∀ ci ∈ db.cart_items.filter (fun c => c.user_id == uid),
      (db.products.find? (fun q => q.id == ci.product_id)).isSome = true)
    (hfail : ∃ ci ∈ db.cart_items.filter (fun c => c.user_id == uid),
      cartFailsB db.products ci = true) :
    ∃ ci ∈ db.cart_items.filter (fun c => c.user_id == uid), ∃ p,
      db.products.find? (fun q => q.id == ci.product_id) = some p ∧
      (p.is_active = false ∨ p.stock < ci.quantity) ∧
      createOrder db uid (some sid) bid? uuidHex =
        (.err 400 (unavailableMsg p.name), db) := by
  obtain ⟨ci, hci, p, hp, hbad, hrun⟩ :=
    processCart_failure (db.cart_items.filter (fun c => c.user_id == uid)) db.products
      db.next_id (db.next_id + 1) hdist hfk hfail
  refine ⟨ci, hci, p, hp, hbad, ?_⟩
  have hne : (db.cart_items.filter (fun c => c.user_id == uid)).isEmpty = false := by
    have h1 : db.cart_items.filter (fun c => c.user_id == uid) ≠ [] :=
      List.ne_nil_of_mem hci
    cases h2 : db.cart_items.filter (fun c => c.user_id == uid) with
    | nil => exact absurd h2 h1
    | cons x xs => rfl
  unfold createOrder
  dsimp only
  rw [hship]
  dsimp only
  rw [hbill]
  dsimp only
  rw [hne]
  have hneg : ¬((false : Bool) = true) := by simp
  rw [if_neg hneg]
  rw [hrun]

/-- Witness for C1: ordering a cart of 2 Widgets and 1 Gadget when the
Gadget's stock is 0 fails with 400 and leaves the state untouched. -/
theorem c1_witness :
    ∃ ci ∈ wDbFail.cart_items.filter (fun c => c.user_id == 1), ∃ p,
      wDbFail.products.find? (fun q => q.id == ci.product_id) = some p ∧
      (p.is_active = false ∨ p.stock < ci.quantity) ∧
      createOrder wDbFail 1 (some 20) none "0123456789abcdef" =
        (.err 400 (unavailableMsg p.name), wDbFail) :=
  c1_order_atomicity wDbFail 1 20 none "0123456789abcdef" wHome wHome
    rfl rfl (by decide) (by decide) (by decide)

/-- C2: successful order placement from a non-empty all-valid cart creates
a "pending" order numbered "ORD-" plus 8 uppercase hex characters whose
total is the sum of price-at-order-time times quantity; each order item
snapshots the product's current price (updating the product later leaves
order items untouched); each ordered product's stock is decremented by the
ordered quantity; and every cart item of the user is deleted. -/
theorem c2_order_success (db : DB) (uid sid : Nat) (bid? : Option Nat) (uuidHex : String)
    (shipping billing : Address)
    (hship : db.addresses.find? (fun a => a.id == sid && a.user_id == uid) = some shipping)
    (hbill : db.addresses.find? (fun a => a.id == bid?.getD sid && a.user_id == uid) = some billing)
    (hne : (db.cart_items.filter (fun c => c.user_id == uid)).isEmpty = false)
    (hdist : ((db.cart_items.filter (fun c => c.user_id == uid)).map
      (fun c => c.product_id)).Nodup)
    (hok : ∀ ci ∈ db.cart_items.filter (fun c => c.user_id == uid),
      cartOkB db.products ci = true)
    (hhexlen : 8 ≤ uuidHex.toList.length)
    (hhex : ∀ c ∈ uuidHex.toList, c ∈ lowerHexChars) :
    ∃ order : Order,
      createOrder db uid (some sid) bid? uuidHex =
        (.okOrder order.id order.order_number order.status order.total_amount,
         { db with products := stockAfter db.products (db.cart_items.filter (fun c => c.user_id == uid)), orders := db.orders ++ [order], order_items := db.order_items ++ mkItems db.products db.next_id (db.next_id + 1) (db.cart_items.filter (fun c => c.user_id == uid)), cart_items := db.cart_items.filter (fun c => !(c.user_id == uid)), next_id := db.next_id + 1 + (mkItems db.products db.next_id (db.next_id + 1) (db.cart_items.filter (fun c => c.user_id == uid))).length }) ∧
      order.status = "pending" ∧
      order.total_amount
        = cartTotal db.products (db.cart_items.filter (fun c => c.user_id == uid)) ∧
      (∃ cs : List Char, order.order_number = "ORD-" ++ String.mk cs ∧ cs.length = 8 ∧
        ∀ c ∈ cs, c ∈ upperHexChars) ∧
      (∀ ci ∈ db.cart_items.filter (fun c => c.user_id == uid),
        ∃ it ∈ (createOrder db uid (some sid) bid? uuidHex).2.order_items,
          it.order_id = order.id ∧ it.product_id = ci.product_id ∧
          it.quantity = ci.quantity ∧ it.price = priceOf db.products ci.product_id) ∧
      (∀ ci ∈ db.cart_items.filter (fun c => c.user_id == uid), ∀ p : Product,
        db.products.find? (fun q => q.id == ci.product_id) = some p →
        (createOrder db uid (some sid) bid? uuidHex).2.products.find?
            (fun q => q.id == ci.product_id)
          = some { p with stock := p.stock - ci.quantity }) ∧
      (∀ c ∈ (createOrder db uid (some sid) bid? uuidHex).2.cart_items,
        ¬ c.user_id = uid) ∧
      (∀ uid2 pid2 data,
        (updateProduct (createOrder db uid (some sid) bid? uuidHex).2 uid2 pid2 data).2.order_items
          = (createOrder db uid (some sid) bid? uuidHex).2.order_items) := by
  have hsucc := processCart_success (db.cart_items.filter (fun c => c.user_id == uid))
    db.products db.next_id (db.next_id + 1) hdist hok
  have hco : createOrder db uid (some sid) bid? uuidHex =
      (.okOrder db.next_id (orderNumber uuidHex) "pending"
        (cartTotal db.products (db.cart_items.filter (fun c => c.user_id == uid))),
       { db with products := stockAfter db.products (db.cart_items.filter (fun c => c.user_id == uid)), orders := db.orders ++ [{ id := db.next_id, order_number := orderNumber uuidHex, status := "pending", total_amount := cartTotal db.products (db.cart_items.filter (fun c => c.user_id == uid)), user_id := uid, shipping_address_id := shipping.id, billing_address_id := billing.id }], order_items := db.order_items ++ mkItems db.products db.next_id (db.next_id + 1) (db.cart_items.filter (fun c => c.user_id == uid)), cart_items := db.cart_items.filter (fun c => !(c.user_id == uid)), next_id := db.next_id + 1 + (mkItems db.products db.next_id (db.next_id + 1) (db.cart_items.filter (fun c => c.user_id == uid))).length }) := by
    unfold createOrder
    dsimp only
    rw [hship]
    dsimp only
    rw [hbill]
    dsimp only
    rw [hne]
    have hneg : ¬((false : Bool) = true) := by simp
    rw [if_neg hneg]
    rw [hsucc]
  refine ⟨{ id := db.next_id, order_number := orderNumber uuidHex, status := "pending",
            total_amount := cartTotal db.products
              (db.cart_items.filter (fun c => c.user_id == uid)),
            user_id := uid, shipping_address_id := shipping.id,
            billing_address_id := billing.id },
          hco, rfl, rfl, ?_, ?_, ?_, ?_, ?_⟩
  · refine ⟨(uuidHex.toList.take 8).map Char.toUpper, rfl, ?_, ?_⟩
    · rw [List.length_map, List.length_take]
      omega
    · intro c hc
      obtain ⟨c', hc', rfl⟩ := List.mem_map.mp hc
      exact upper_of_lower c' (hhex c' (List.take_subset _ _ hc'))
  · intro ci hci
    obtain ⟨it, hit, h1, h2, h3, h4⟩ :=
      mkItems_mem db.products db.next_id (db.cart_items.filter (fun c => c.user_id == uid))
        (db.next_id + 1) ci hci
    refine ⟨it, ?_, h1, h2, h3, h4⟩
    rw [hco]
    dsimp only
    exact List.mem_append_right _ hit
  · intro ci hci p hp
    rw [hco]
    dsimp only
    exact stockAfter_find?_mem (db.cart_items.filter (fun c => c.user_id == uid))
      db.products hdist ci hci p hp
  · intro c hc
    rw [hco] at hc
    dsimp only at hc
    have := (List.mem_filter.mp hc).2
    simpa using this
  · intro uid2 pid2 data
    exact updateProduct_order_items _ uid2 pid2 data

/-- Witness for C2: user 1 orders 2 Widgets (10.00) and 1 Gadget (5.50)
successfully at a concrete database. -/
theorem c2_witness :
    ∃ order : Order,
      createOrder wDb 1 (some 20) none "0123456789abcdef" =
        (.okOrder order.id order.order_number order.status order.total_amount,
         { wDb with products := stockAfter wDb.products (wDb.cart_items.filter (fun c => c.user_id == 1)), orders := wDb.orders ++ [order], order_items := wDb.order_items ++ mkItems wDb.products wDb.next_id (wDb.next_id + 1) (wDb.cart_items.filter (fun c => c.user_id == 1)), cart_items := wDb.cart_items.filter (fun c => !(c.user_id == 1)), next_id := wDb.next_id + 1 + (mkItems wDb.products wDb.next_id (wDb.next_id + 1) (wDb.cart_items.filter (fun c => c.user_id == 1))).length }) ∧
      order.status = "pending" ∧
      order.total_amount
        = cartTotal wDb.products (wDb.cart_items.filter (fun c => c.user_id == 1)) ∧
      (∃ cs : List Char, order.order_number = "ORD-" ++ String.mk cs ∧ cs.length = 8 ∧
        ∀ c ∈ cs, c ∈ upperHexChars) ∧
      (∀ ci ∈ wDb.cart_items.filter (fun c => c.user_id == 1),
        ∃ it ∈ (createOrder wDb 1 (some 20) none "0123456789abcdef").2.order_items,
          it.order_id = order.id ∧ it.product_id = ci.product_id ∧
          it.quantity = ci.quantity ∧ it.price = priceOf wDb.products ci.product_id) ∧
      (∀ ci ∈ wDb.cart_items.filter (fun c => c.user_id == 1), ∀ p : Product,
        wDb.products.find? (fun q => q.id == ci.product_id) = some p →
        (createOrder wDb 1 (some 20) none "0123456789abcdef").2.products.find?
            (fun q => q.id == ci.product_id)
          = some { p with stock := p.stock - ci.quantity }) ∧
      (∀ c ∈ (createOrder wDb 1 (some 20) none "0123456789abcdef").2.cart_items,
        ¬ c.user_id = 1) ∧
      (∀ uid2 pid2 data,
        (updateProduct (createOrder wDb 1 (some 20) none "0123456789abcdef").2
          uid2 pid2 data).2.order_items
          = (createOrder wDb 1 (some 20) none "0123456789abcdef").2.order_items) :=
  c2_order_success wDb 1 20 none "0123456789abcdef" wHome wHome
    rfl rfl rfl (by decide) (by decide) (by decide) (by decide)

/-- C3: at most one cart item per (user, product) pair — the invariant is
preserved by add-to-cart, update-cart-item, remove-cart-item and
create-order; adding a product already in the cart increments the unique
existing row's quantity by the requested amount, creating no second row;
adding a product not in the cart appends exactly one row with the
requested quantity. -/
theorem c3_cart_unique (db : DB) (uid pid : Nat) (qty : Int) :
    (∀ pid? qv, cartInvariant db.cart_items →
      cartInvariant (addToCart db uid pid? qv).2.cart_items) ∧
    (∀ item_id qv, cartInvariant db.cart_items →
      cartInvariant (updateCartItem db uid item_id qv).2.cart_items) ∧
    (∀ item_id, cartInvariant db.cart_items →
      cartInvariant (removeFromCart db uid item_id).2.cart_items) ∧
    (∀ sid bid hex, cartInvariant db.cart_items →
      cartInvariant (createOrder db uid sid bid hex).2.cart_items) ∧
    (∀ product c0, cartInvariant db.cart_items →
      db.products.find? (fun p => p.id == pid && p.is_active) = some product →
      0 < qty → ¬(product.stock < qty) →
      db.cart_items.find? (fun c => c.user_id == uid && c.product_id == pid) = some c0 →
      (addToCart db uid (some pid) (some (.int qty))).2.cart_items.filter
          (fun c => c.user_id == uid && c.product_id == pid)
        = [{ c0 with quantity := c0.quantity + qty }] ∧
      (addToCart db uid (some pid) (some (.int qty))).2.cart_items.length
        = db.cart_items.length ∧
      (addToCart db uid (some pid) (some (.int qty))).2.cart_items.filter
          (fun c => !(c.user_id == uid && c.product_id == pid))
        = db.cart_items.filter (fun c => !(c.user_id == uid && c.product_id == pid))) ∧
    (∀ product, db.products.find? (fun p => p.id == pid && p.is_active) = some product →
      0 < qty → ¬(product.stock < qty) →
      db.cart_items.find? (fun c => c.user_id == uid && c.product_id == pid) = none →
      (addToCart db uid (some pid) (some (.int qty))).2.cart_items
        = db.cart_items ++ [{ id := db.next_id, quantity := qty, user_id := uid, product_id := pid }] ∧
      (addToCart db uid (some pid) (some (.int qty))).2.cart_items.length
        = db.cart_items.length + 1) := by
  refine ⟨?_, ?_, ?_, ?_, ?_, ?_⟩
  · intro pid? qv hinv
    rcases addToCart_cart_shape db uid pid? qv with h | ⟨pid2, qty2, h⟩ | ⟨pid2, qty2, hnone, h⟩
    · rw [h]; exact hinv
    · rw [h]
      unfold cartInvariant at hinv ⊢
      rw [map_updateFirst_eq (fun c : CartItem => c.user_id == uid && c.product_id == pid2)
        (fun c : CartItem => { c with quantity := c.quantity + qty2 })
        (fun c : CartItem => (c.user_id, c.product_id)) (fun x _ => rfl)]
      exact hinv
    · rw [h]
      unfold cartInvariant at hinv ⊢
      rw [List.map_append, List.nodup_append]
      refine ⟨hinv, by simp, ?_⟩
      intro x hx hx2
      simp only [List.map_cons, List.map_nil, List.mem_singleton] at hx2
      subst hx2
      obtain ⟨c, hc, hg⟩ := List.mem_map.mp hx
      have hno := List.find?_eq_none.mp hnone c hc
      rw [Prod.mk.injEq] at hg
      simp [hg.1, hg.2] at hno
  · intro item_id qv hinv
    rcases updateCartItem_cart_shape db uid item_id qv with h | ⟨qty2, h⟩
    · rw [h]; exact hinv
    · rw [h]
      unfold cartInvariant at hinv ⊢
      rw [map_updateFirst_eq (fun c : CartItem => c.id == item_id && c.user_id == uid)
        (fun c : CartItem => { c with quantity := qty2 })
        (fun c : CartItem => (c.user_id, c.product_id)) (fun x _ => rfl)]
      exact hinv
  · intro item_id hinv
    rcases removeFromCart_cart_shape db uid item_id with h | h
    · rw [h]; exact hinv
    · rw [h]
      exact List.Nodup.sublist ((removeFirst_sublist _ _).map _) hinv
  · intro sid bid hex hinv
    rcases createOrder_cart_shape db uid sid bid hex with h | h
    · rw [h]; exact hinv
    · rw [h]
      exact List.Nodup.sublist ((List.filter_sublist _).map _) hinv
  · intro product c0 hinv hprod hq hstock hfind
    have hred : (addToCart db uid (some pid) (some (.int qty))).2.cart_items =
        updateFirst (fun c => c.user_id == uid && c.product_id == pid)
          (fun c => { c with quantity := c.quantity + qty }) db.cart_items := by
      simp [addToCart, pyInt, hprod, hfind, if_neg (by omega : ¬ qty ≤ 0), if_neg hstock]
    refine ⟨?_, ?_, ?_⟩
    · rw [hred]
      exact filter_updateFirst_pos (fun c : CartItem => c.user_id == uid && c.product_id == pid)
        (fun c : CartItem => { c with quantity := c.quantity + qty })
        (fun x hx => hx) db.cart_items c0 hfind
        (cart_filter_singleton db.cart_items uid pid hinv c0 hfind)
    · rw [hred, length_updateFirst]
    · rw [hred]
      exact filter_not_updateFirst (fun c : CartItem => c.user_id == uid && c.product_id == pid)
        (fun c : CartItem => { c with quantity := c.quantity + qty })
        (fun x hx => hx) db.cart_items
  · intro product hprod hq hstock hnone
    have hred : (addToCart db uid (some pid) (some (.int qty))).2.cart_items =
        db.cart_items ++ [{ id := db.next_id, quantity := qty, user_id := uid, product_id := pid }] := by
      simp [addToCart, pyInt, hprod, hnone, if_neg (by omega : ¬ qty ≤ 0), if_neg hstock]
    exact ⟨hred, by rw [hred]; simp⟩

/-- C5: at most one default address per user is preserved by
create-address; a new address submitted as default, or created when the
user owns zero addresses, ends up default with every other address of
that user non-default; otherwise the new address is stored non-default
and the existing addresses are untouched. -/
theorem c5_default_address (db : DB) (uid : Nat) (data : AddressData) :
    (addressInvariant db.addresses →
      addressInvariant (createAddress db uid data).2.addresses) ∧
    (∀ street city country zip_code,
      data.street = some street → data.city = some city →
      data.country = some country → data.zip_code = some zip_code →
      (data.is_default.getD false = true ∨
        (db.addresses.filter (fun a => a.user_id == uid)).length = 0) →
      ∃ a, (createAddress db uid data).1 = .okAddress a ∧
        a.is_default = true ∧ a.user_id = uid ∧
        a ∈ (createAddress db uid data).2.addresses ∧
        (∀ a' ∈ (createAddress db uid data).2.addresses, a'.user_id = uid →
          a' = a ∨ a'.is_default = false)) ∧
    (∀ street city country zip_code,
      data.street = some street → data.city = some city →
      data.country = some country → data.zip_code = some zip_code →
      data.is_default.getD false = false →
      (db.addresses.filter (fun a => a.user_id == uid)).length ≠ 0 →
      ∃ a, (createAddress db uid data).1 = .okAddress a ∧
        a.is_default = false ∧
        (createAddress db uid data).2.addresses = db.addresses ++ [a]) := by
  refine ⟨?_, ?_, ?_⟩
  · intro hinv
    rcases createAddress_addresses_shape db uid data with h | ⟨a, hau, had, h⟩ | ⟨a, hau, had, h⟩
    · rw [h]; exact hinv
    · rw [h]
      intro v
      rw [List.filter_append]
      by_cases hv : v = uid
      · subst hv
        have h1 : (db.addresses.map
            (fun b => if b.user_id == v then { b with is_default := false } else b)).filter
              (fun x => x.user_id == v && x.is_default) = [] := by
          rw [List.filter_eq_nil_iff]
          intro x hx
          obtain ⟨b, hb, rfl⟩ := List.mem_map.mp hx
          by_cases hbu : b.user_id = v
          · simp [hbu]
          · simp [hbu]
        rw [h1]
        simp [hau, had]
      · have h1 : (db.addresses.map
            (fun b => if b.user_id == uid then { b with is_default := false } else b)).filter
              (fun x => x.user_id == v && x.is_default)
            = (db.addresses.filter (fun x => x.user_id == v && x.is_default)).map
                (fun b => if b.user_id == uid then { b with is_default := false } else b) := by
          rw [List.filter_map]
          congr 1
          apply List.filter_congr
          intro b _
          by_cases hbu : b.user_id = uid
          · have hbv : (uid == v) = false := by
              simp only [beq_eq_false_iff_ne, ne_eq]
              exact fun hh => hv hh.symm
            simp [hbu, hbv]
          · simp [hbu]
        rw [h1]
        have hav : (a.user_id == v) = false := by
          rw [hau]
          simp only [beq_eq_false_iff_ne, ne_eq]
          exact fun hh => hv hh.symm
        have h2 : [a].filter (fun x => x.user_id == v && x.is_default) = [] := by
          simp [hav]
        rw [h2]
        simp only [List.append_nil, List.length_map]
        exact hinv v
    · rw [h]
      intro v
      rw [List.filter_append]
      have h2 : [a].filter (fun x => x.user_id == v && x.is_default) = [] := by
        simp [had]
      rw [h2]
      simp only [List.append_nil]
      exact hinv v
  · intro street city country zip_code hs hc hco hz hcase
    have hcond : (data.is_default.getD false
        || ((db.addresses.filter (fun a => a.user_id == uid)).length == 0)) = true := by
      rcases hcase with h | h <;> simp [h]
    have hres : createAddress db uid data =
        (.okAddress { id := db.next_id, street := street, city := city, state := data.state.getD "", country := country, zip_code := zip_code, is_default := true, address_type := data.address_type.getD "", user_id := uid },
         { db with addresses := (db.addresses.map (fun b => if b.user_id == uid then { b with is_default := false } else b)) ++ [{ id := db.next_id, street := street, city := city, state := data.state.getD "", country := country, zip_code := zip_code, is_default := true, address_type := data.address_type.getD "", user_id := uid }], next_id := db.next_id + 1 }) := by
      simp [createAddress, hs, hc, hco, hz, hcond]
    refine ⟨{ id := db.next_id, street := street, city := city, state := data.state.getD "",
              country := country, zip_code := zip_code, is_default := true,
              address_type := data.address_type.getD "", user_id := uid },
            by rw [hres], rfl, rfl, ?_, ?_⟩
    · rw [hres]
      simp
    · intro a' ha' hu
      rw [hres] at ha'
      dsimp only at ha'
      rcases List.mem_append.mp ha' with h | h
      · obtain ⟨b, hb, rfl⟩ := List.mem_map.mp h
        by_cases hbu : b.user_id = uid
        · right
          simp [hbu]
        · exact absurd (by simpa [hbu] using hu) hbu
      · left
        simpa using h
  · intro street city country zip_code hs hc hco hz hdef hlen
    have hcond : (data.is_default.getD false
        || ((db.addresses.filter (fun a => a.user_id == uid)).length == 0)) = false := by
      rw [hdef]
      simpa using hlen
    have hres : createAddress db uid data =
        (.okAddress { id := db.next_id, street := street, city := city, state := data.state.getD "", country := country, zip_code := zip_code, is_default := data.is_default.getD false, address_type := data.address_type.getD "", user_id := uid },
         { db with addresses := db.addresses ++ [{ id := db.next_id, street := street, city := city, state := data.state.getD "", country := country, zip_code := zip_code, is_default := data.is_default.getD false, address_type := data.address_type.getD "", user_id := uid }], next_id := db.next_id + 1 }) := by
      simp [createAddress, hs, hc, hco, hz, hcond]
    exact ⟨_, by rw [hres], hdef, by rw [hres]⟩

/-- C8: soft delete only affects the listing view — after an
administrator's delete the product row still exists with `is_active`
false, it appears in no `/products` listing page, and its detail endpoint
still returns it with full fields rather than 404. -/
theorem c8_soft_delete (db : DB) (uid pid : Nat) (user : User) (p0 : Product)
    (huser : db.users.find? (fun u => u.id == uid) = some user)
    (hadmin : user.is_admin = true)
    (hp : db.products.find? (fun p => p.id == pid) = some p0)
    (hnodup : (db.products.map (fun p => p.id)).Nodup)
    (hfk : ∀ r ∈ db.reviews, (db.users.find? (fun u => u.id == r.user_id)).isSome = true) :
    (deleteProduct db uid pid).1 = .okProductDelete ∧
    (deleteProduct db uid pid).2.products.find? (fun p => p.id == pid)
      = some { p0 with is_active := false } ∧
    (∀ page per_page cid, ∀ e ∈ getProducts (deleteProduct db uid pid).2 page per_page cid,
      e.id ≠ pid) ∧
    (∃ d, getProduct (deleteProduct db uid pid).2 pid = .okDetail d ∧
      d.id = pid ∧ d.name = p0.name ∧ d.price = p0.price ∧ d.stock = p0.stock ∧
      d.sku = p0.sku) := by
  have hdel : deleteProduct db uid pid =
      (.okProductDelete,
       { db with products := (updateFirst (fun p => p.id == pid)
           (fun p => { p with is_active := false }) db.products) }) := by
    simp [deleteProduct, huser, hadmin, hp]
  have hfind2 : (updateFirst (fun p => p.id == pid)
      (fun p => { p with is_active := false }) db.products).find? (fun p => p.id == pid)
      = some { p0 with is_active := false } :=
    find?_updateFirst_self (fun p : Product => p.id == pid)
      (fun p : Product => { p with is_active := false })
      (fun x hx => hx) db.products p0 hp
  have hp0id : p0.id = pid := by
    have := List.find?_some hp
    simpa using this
  refine ⟨by rw [hdel], by rw [hdel]; exact hfind2, ?_, ?_⟩
  · intro page per_page cid e he
    intro hcontra
    rw [hdel] at he
    dsimp only at he
    obtain ⟨product, hmem, hact, hid⟩ := getProducts_mem_active _ _ _ _ _ he
    dsimp only at hmem
    rw [hid] at hcontra
    have hnodup' : ((updateFirst (fun p => p.id == pid)
        (fun p => { p with is_active := false }) db.products).map (fun p => p.id)).Nodup := by
      rw [map_updateFirst_eq (fun p : Product => p.id == pid)
        (fun p : Product => { p with is_active := false })
        (fun p : Product => p.id) (fun x _ => rfl)]
      exact hnodup
    have hfind := find?_eq_of_mem_nodup (fun p : Product => p.id) _ hnodup' product hmem
    dsimp only at hfind
    rw [hcontra] at hfind
    rw [hfind2] at hfind
    injection hfind with hfind
    rw [← hfind] at hact
    simp at hact
  · rw [hdel]
    dsimp only
    unfold getProduct
    dsimp only
    rw [hfind2]
    dsimp only
    obtain ⟨es, hes⟩ := detailReviews_isSome db.users
      (db.reviews.filter (fun r => r.product_id == p0.id))
      (fun r hr => hfk r (List.mem_of_mem_filter hr))
    rw [hes]
    exact ⟨_, rfl, hp0id, rfl, rfl, rfl, rfl⟩

/-- Witness for C8 at a concrete database: admin 1 soft-deletes Widget. -/
theorem c8_witness :
    (deleteProduct wDb 1 10).1 = .okProductDelete ∧
    (deleteProduct wDb 1 10).2.products.find? (fun p => p.id == 10)
      = some { wWidget with is_active := false } ∧
    (∀ page per_page cid, ∀ e ∈ getProducts (deleteProduct wDb 1 10).2 page per_page cid,
      e.id ≠ 10) ∧
    (∃ d, getProduct (deleteProduct wDb 1 10).2 10 = .okDetail d ∧
      d.id = 10 ∧ d.name = wWidget.name ∧ d.price = wWidget.price ∧
      d.stock = wWidget.stock ∧ d.sku = wWidget.sku) :=
  c8_soft_delete wDb 1 10 wAdmin wWidget rfl rfl rfl (by decide) (by decide)

/-- Witness for C5: a user with no addresses creates one submitted
non-default; it ends up the (unique) default. -/
theorem c5_witness :
    ∃ a, (createAddress wDb 2 wAddrData).1 = .okAddress a ∧
      a.is_default = true ∧ a.user_id = 2 ∧
      a ∈ (createAddress wDb 2 wAddrData).2.addresses ∧
      (∀ a' ∈ (createAddress wDb 2 wAddrData).2.addresses, a'.user_id = 2 →
        a' = a ∨ a'.is_default = false) :=
  (c5_default_address wDb 2 wAddrData).2.1 "2 Oak Ave" "Smallville" "US" "22222"
    rfl rfl rfl rfl (Or.inr (by decide))

/-- Witness for C3: adding 3 more Widgets to a cart already holding 2
leaves a single row with quantity 5 and the same row count. -/
theorem c3_witness :
    (addToCart wDb 1 (some 10) (some (.int 3))).2.cart_items.filter
        (fun c => c.user_id == 1 && c.product_id == 10)
      = [{ id := 30, quantity := 2 + 3, user_id := 1, product_id := 10 }] ∧
    (addToCart wDb 1 (some 10) (some (.int 3))).2.cart_items.length
      = wDb.cart_items.length :=
  ⟨((c3_cart_unique wDb 1 10 3).2.2.2.2.1 wWidget
      { id := 30, quantity := 2, user_id := 1, product_id := 10 }
      (by unfold cartInvariant; decide) (by decide) (by decide) (by decide) (by decide)).1,
   ((c3_cart_unique wDb 1 10 3).2.2.2.2.1 wWidget
      { id := 30, quantity := 2, user_id := 1, product_id := 10 }
      (by unfold cartInvariant; decide) (by decide) (by decide) (by decide) (by decide)).2.1⟩

/-- Witness for C6: rating 5 accepted (review created), rating 6
rejected, at a concrete database. -/
theorem c6_witness :
    createReview wDb 2 10 (some (.int 5)) none =
      (.okReview wDb.next_id 5 ((none : Option String).getD ""),
       { wDb with reviews := wDb.reviews ++ [{ id := wDb.next_id, rating := 5, comment := (none : Option String).getD "", user_id := 2, product_id := 10 }], next_id := wDb.next_id + 1 }) ∧
    createReview wDb 2 10 (some (.int 6)) none =
      (.err 400 "Rating must be between 1 and 5", wDb) :=
  ⟨((c6_createReview_cases wDb 2 10 5 none).2.2.2.1 (by decide) (by decide)
      (by decide) rfl).1,
   (c6_createReview_cases wDb 2 10 6 none).2.1 (by decide) (by decide)⟩

/-- Witness for C10 at a concrete schema. -/
theorem c10_witness : downgrade (upgrade wSchema) = wSchema :=
  (c10_migration_roundtrip wSchema (by decide)).2.2.2.2.2.2

/-- Witness for C9 at concrete non-convertible payloads. -/
theorem c9_witness :
    addToCart wDb 1 (some 10) (some (.str "abc")) = (.err 500 "Internal server error", wDb) ∧
    updateCartItem wDb 1 30 (some .null) = (.err 500 "Internal server error", wDb) ∧
    createReview wDb 1 10 (some (.str "abc")) none = (.err 500 "Internal server error", wDb) :=
  ⟨(c9_int_conversion_500 wDb 1 10 30 (.str "abc") none (by decide)).1,
   (c9_int_conversion_500 wDb 1 10 30 .null none rfl).2.1 (by decide),
   (c9_int_conversion_500 wDb 1 10 30 (.str "abc") none (by decide)).2.2.1 (by decide)⟩

/-- Witness for C4 at concrete failing requests. -/
theorem c4_witness :
    addToCart wDb 1 (some 99) (some (.int (-3))) =
      (.err 404 "Product not found or unavailable", wDb) ∧
    addToCart wDb 1 (some 10) (some (.int 0)) =
      (.err 400 "Quantity must be greater than zero", wDb) ∧
    addToCart wDb 1 (some 10) (some (.int 6)) =
      (.err 400 "Not enough stock available", wDb) :=
  ⟨(c4_addToCart_validation wDb 1 99 (-3)).1 (by decide),
   (c4_addToCart_validation wDb 1 10 0).2.1 wWidget (by decide) (by decide),
   (c4_addToCart_validation wDb 1 10 6).2.2 wWidget (by decide) (by decide) (by decide)⟩

end ECom
